import Mathlib

/-!
Shallow embedding of the oxidx descriptor/handle translation layer
(src/oxidx/src/conv.rs, device.rs, command_queue.rs and the
frank-luna common helpers in utils.rs), with theorems checking the
specification's claims about it.

Native raw pointers, COM interface handles and blobs are modelled as `Nat`.
Native calls whose outcome depends on the driver are passed in as oracle
arguments of type `Except Nat α` (the `Nat` standing for the HRESULT).
Panics (`unwrap`, `expect`, `assert!`, `todo!`) are modelled by `Option`:
`none` is a panic.
-/

namespace Oxidx

/-! ### Root parameters (src/oxidx/src/conv.rs lines 374-433)

`RootParameterType<'a>` from `pso`: the sum type over the arms of the native
`D3D12_ROOT_PARAMETER` union.  The borrowed `ranges` slice of
`DescriptorTable` is modelled by the list of its (abstract) range records. -/

inductive RootParameterType where
  | descriptorTable (ranges : List Nat)
  | constants (shader_register register_space num_32bit_values : Nat)
  | cbv (shader_register register_space : Nat)
  | srv (shader_register register_space : Nat)
  | uav (shader_register register_space : Nat)
deriving DecidableEq, Repr

/-- Native constants of the `D3D12_ROOT_PARAMETER_TYPE` enumeration. -/
def D3D12_ROOT_PARAMETER_TYPE_DESCRIPTOR_TABLE : Nat := 0

def D3D12_ROOT_PARAMETER_TYPE_32BIT_CONSTANTS : Nat := 1

def D3D12_ROOT_PARAMETER_TYPE_CBV : Nat := 2

def D3D12_ROOT_PARAMETER_TYPE_SRV : Nat := 3

def D3D12_ROOT_PARAMETER_TYPE_UAV : Nat := 4

/-- `RootParameterType::as_type_raw` (conv.rs lines 375-383). -/
def RootParameterType.as_type_raw : RootParameterType → Nat
  | .descriptorTable _ => D3D12_ROOT_PARAMETER_TYPE_DESCRIPTOR_TABLE
  | .constants _ _ _ => D3D12_ROOT_PARAMETER_TYPE_32BIT_CONSTANTS
  | .cbv _ _ => D3D12_ROOT_PARAMETER_TYPE_CBV
  | .srv _ _ => D3D12_ROOT_PARAMETER_TYPE_SRV
  | .uav _ _ => D3D12_ROOT_PARAMETER_TYPE_UAV

/-- The native union `D3D12_ROOT_PARAMETER_0`: a value of this type records
which union arm was initialized by the converter and its contents.
`descriptorTable` carries `(NumDescriptorRanges, pDescriptorRanges)`; the
pointer is abstracted to the range list it points at. -/
inductive RootParameterPayload where
  | descriptorTableArm (num_descriptor_ranges : Nat) (p_descriptor_ranges : List Nat)
  | constantsArm (shader_register register_space num_32bit_values : Nat)
  | descriptorArm (shader_register register_space : Nat)
deriving DecidableEq, Repr

/-- `RootParameterType::as_raw` (conv.rs lines 385-432), arms in source order:
Cbv, Srv and Uav all initialize the `Descriptor` arm with
`D3D12_ROOT_DESCRIPTOR`; DescriptorTable the `DescriptorTable` arm;
Constants the `Constants` arm. -/
def RootParameterType.as_raw : RootParameterType → RootParameterPayload
  | .cbv shader_register register_space =>
      .descriptorArm shader_register register_space
  | .srv shader_register register_space =>
      .descriptorArm shader_register register_space
  | .uav shader_register register_space =>
      .descriptorArm shader_register register_space
  | .descriptorTable ranges =>
      .descriptorTableArm ranges.length ranges
  | .constants shader_register register_space num_32bit_values =>
      .constantsArm shader_register register_space num_32bit_values

/-- The three arms of the `D3D12_ROOT_PARAMETER` union. -/
inductive RootParamArm where
  | descriptorTable
  | constants
  | descriptor
deriving DecidableEq, Repr

/-- The union arm that a native `D3D12_ROOT_PARAMETER_TYPE` tag selects,
per the native API declaration (`DESCRIPTOR_TABLE` reads the
`DescriptorTable` arm, `32BIT_CONSTANTS` the `Constants` arm, and CBV, SRV
and UAV all read the shared `Descriptor` arm). `none` for a tag value that
is not a declared enumeration constant. -/
def rootParamArmOfTag : Nat → Option RootParamArm
  | 0 => some .descriptorTable
  | 1 => some .constants
  | 2 => some .descriptor
  | 3 => some .descriptor
  | 4 => some .descriptor
  | _ => none

/-- The union arm a `RootParameterPayload` value initialized. -/
def RootParameterPayload.arm : RootParameterPayload → RootParamArm
  | .descriptorTableArm _ _ => .descriptorTable
  | .constantsArm _ _ _ => .constants
  | .descriptorArm _ _ => .descriptor

/-! ### Render-target view dimensions (src/oxidx/src/conv.rs lines 248-338) -/

/-- `ViewDimension` from `resources`: the sum type over the arms of the
native `D3D12_RENDER_TARGET_VIEW_DESC` union. -/
inductive ViewDimension where
  | buffer (first_element num_elements : Nat)
  | tex1d (mip_slice : Nat)
  | tex2d (mip_slice plane_slice : Nat)
  | tex3d (mip_slice first_w_slice w_size : Nat)
  | arrayTex1d (mip_slice first_array_slice array_size : Nat)
  | arrayTex2d (mip_slice plane_slice first_array_slice array_size : Nat)
  | tex2dMs
  | array2dMs (first_array_slice array_size : Nat)
deriving DecidableEq, Repr

/-- Native constants of the `D3D12_RTV_DIMENSION` enumeration
(UNKNOWN = 0, BUFFER = 1, TEXTURE1D = 2, TEXTURE1DARRAY = 3,
TEXTURE2D = 4, TEXTURE2DARRAY = 5, TEXTURE2DMS = 6,
TEXTURE2DMSARRAY = 7, TEXTURE3D = 8). -/
def D3D12_RTV_DIMENSION_BUFFER : Nat := 1

def D3D12_RTV_DIMENSION_TEXTURE1D : Nat := 2

def D3D12_RTV_DIMENSION_TEXTURE1DARRAY : Nat := 3

def D3D12_RTV_DIMENSION_TEXTURE2D : Nat := 4

def D3D12_RTV_DIMENSION_TEXTURE2DARRAY : Nat := 5

def D3D12_RTV_DIMENSION_TEXTURE2DMS : Nat := 6

def D3D12_RTV_DIMENSION_TEXTURE2DMSARRAY : Nat := 7

def D3D12_RTV_DIMENSION_TEXTURE3D : Nat := 8

/-- `ViewDimension::as_type_raw` (conv.rs lines 249-260). -/
def ViewDimension.as_type_raw : ViewDimension → Nat
  | .buffer _ _ => D3D12_RTV_DIMENSION_BUFFER
  | .tex1d _ => D3D12_RTV_DIMENSION_TEXTURE1D
  | .tex2d _ _ => D3D12_RTV_DIMENSION_TEXTURE2D
  | .tex3d _ _ _ => D3D12_RTV_DIMENSION_TEXTURE3D
  | .arrayTex1d _ _ _ => D3D12_RTV_DIMENSION_TEXTURE1DARRAY
  | .arrayTex2d _ _ _ _ => D3D12_RTV_DIMENSION_TEXTURE2DARRAY
  | .tex2dMs => D3D12_RTV_DIMENSION_TEXTURE2DMS
  | .array2dMs _ _ => D3D12_RTV_DIMENSION_TEXTURE2DMSARRAY

/-- The native union `D3D12_RENDER_TARGET_VIEW_DESC_0`: records which arm
the converter initialized and its contents. -/
inductive RtvPayload where
  | bufferArm (first_element num_elements : Nat)
  | texture1dArm (mip_slice : Nat)
  | texture2dArm (mip_slice plane_slice : Nat)
  | texture3dArm (mip_slice first_w_slice w_size : Nat)
  | texture1dArrayArm (mip_slice first_array_slice array_size : Nat)
  | texture2dArrayArm (mip_slice plane_slice first_array_slice array_size : Nat)
  | texture2dMsArm (unused_field_nothing_to_define : Nat)
  | texture2dMsArrayArm (first_array_slice array_size : Nat)
deriving DecidableEq, Repr

/-- `ViewDimension::as_raw` (conv.rs lines 262-337), arms in source order. -/
def ViewDimension.as_raw : ViewDimension → RtvPayload
  | .buffer first_element num_elements =>
      .bufferArm first_element num_elements
  | .tex1d mip_slice =>
      .texture1dArm mip_slice
  | .tex2d mip_slice plane_slice =>
      .texture2dArm mip_slice plane_slice
  | .tex3d mip_slice first_w_slice w_size =>
      .texture3dArm mip_slice first_w_slice w_size
  | .arrayTex1d mip_slice first_array_slice array_size =>
      .texture1dArrayArm mip_slice first_array_slice array_size
  | .arrayTex2d mip_slice plane_slice first_array_slice array_size =>
      .texture2dArrayArm mip_slice plane_slice first_array_slice array_size
  | .tex2dMs =>
      .texture2dMsArm 0
  | .array2dMs first_array_slice array_size =>
      .texture2dMsArrayArm first_array_slice array_size

/-- The eight arms of the `D3D12_RENDER_TARGET_VIEW_DESC` union. -/
inductive RtvArm where
  | buffer
  | texture1d
  | texture2d
  | texture3d
  | texture1dArray
  | texture2dArray
  | texture2dMs
  | texture2dMsArray
deriving DecidableEq, Repr

/-- The union arm a native `D3D12_RTV_DIMENSION` tag selects, per the native
API declaration. `none` for UNKNOWN (0) and undeclared values. -/
def rtvArmOfTag : Nat → Option RtvArm
  | 1 => some .buffer
  | 2 => some .texture1d
  | 3 => some .texture1dArray
  | 4 => some .texture2d
  | 5 => some .texture2dArray
  | 6 => some .texture2dMs
  | 7 => some .texture2dMsArray
  | 8 => some .texture3d
  | _ => none

/-- The union arm an `RtvPayload` value initialized. -/
def RtvPayload.arm : RtvPayload → RtvArm
  | .bufferArm _ _ => .buffer
  | .texture1dArm _ => .texture1d
  | .texture2dArm _ _ => .texture2d
  | .texture3dArm _ _ _ => .texture3d
  | .texture1dArrayArm _ _ _ => .texture1dArray
  | .texture2dArrayArm _ _ _ _ => .texture2dArray
  | .texture2dMsArm _ => .texture2dMs
  | .texture2dMsArrayArm _ _ => .texture2dMsArray

/-! ### Error taxonomy -/

/-- Modelled from the spec: the `DxError` taxonomy of section 7 (the file
`src/oxidx/src/error.rs` declaring `crate::error::DxError` is not among
the staged sources; the variant list follows the spec's enumeration). -/
inductive DxError where
  | adapterNotFound
  | driverVersionMismatch
  | fail (message : String)
  | invalidArgs
  | oom
  | notImpl
  | dxgi (message : String)
  | dummy
deriving DecidableEq, Repr

/-- A wrapped handle: `CA::new(res)` stores the already-owned native raw
reference (modelled as `Nat`) without taking an extra count. -/
structure Wrapped where
  raw : Nat
deriving DecidableEq, Repr

/-! ### Device creation operations (src/oxidx/src/device.rs lines 83-201)

Each shim converts its arguments, performs one native COM call and maps the
outcome: `native_call().map_err(|_| DxError::Dummy)?; Ok(New(res))`.  The
native call's outcome is an oracle argument `Except Nat Nat` (error = the
HRESULT, ok = the raw interface pointer); the argument conversion is pure
and does not affect the outcome mapping. -/

/-- `Device::create_command_allocator` (device.rs lines 83-89). -/
def create_command_allocator (nativeCreateCommandAllocator : Except Nat Nat) :
    Except DxError Wrapped :=
  match nativeCreateCommandAllocator with
  | .error _ => .error .dummy
  | .ok res => .ok ⟨res⟩

/-- `Device::create_command_queue` (device.rs lines 91-100). -/
def create_command_queue (nativeCreateCommandQueue : Except Nat Nat) :
    Except DxError Wrapped :=
  match nativeCreateCommandQueue with
  | .error _ => .error .dummy
  | .ok res => .ok ⟨res⟩

/-- `Device::create_fence` (device.rs lines 102-112). -/
def create_fence (nativeCreateFence : Except Nat Nat) :
    Except DxError Wrapped :=
  match nativeCreateFence with
  | .error _ => .error .dummy
  | .ok res => .ok ⟨res⟩

/-- `Device::create_descriptor_heap` (device.rs lines 114-123). -/
def create_descriptor_heap (nativeCreateDescriptorHeap : Except Nat Nat) :
    Except DxError Wrapped :=
  match nativeCreateDescriptorHeap with
  | .error _ => .error .dummy
  | .ok res => .ok ⟨res⟩

/-- `Device::create_command_list` (device.rs lines 140-156). -/
def create_command_list (nativeCreateCommandList : Except Nat Nat) :
    Except DxError Wrapped :=
  match nativeCreateCommandList with
  | .error _ => .error .dummy
  | .ok res => .ok ⟨res⟩

/-- `CommandQueue::signal` (command_queue.rs lines 135-137):
`self.0.Signal(fence, value).map_err(|_| DxError::Dummy)`. -/
def signal (nativeSignal : Except Nat Unit) : Except DxError Unit :=
  match nativeSignal with
  | .error _ => .error .dummy
  | .ok u => .ok u

/-! ### Root signature creation (src/oxidx/src/device.rs lines 158-201) -/

/-- `StaticSamplerDesc` from `pso`; its fields play no role because the
converter never reads them. -/
structure StaticSamplerDesc where
  fields : Nat
deriving DecidableEq, Repr

/-- `StaticSamplerDesc::as_raw` (conv.rs lines 352-356) is `todo!()`:
it panics for every input, so the model returns `none` always. -/
def StaticSamplerDesc.as_raw_opt : StaticSamplerDesc → Option Nat :=
  fun _ => none

/-- The sampler scratch array:
`desc.samplers.iter().map(|sampler| sampler.as_raw()).collect()`.  The
iterator is driven in order and the first `as_raw` call panics, so the
collection of a non-empty list is a panic (`none`). -/
def convertSamplers : List StaticSamplerDesc → Option (List Nat)
  | [] => some []
  | s :: ss =>
    match s.as_raw_opt with
    | none => none
    | some raw =>
      match convertSamplers ss with
      | none => none
      | some raws => some (raw :: raws)

/-- The native calls `create_root_signature` can make, in order. -/
inductive RootSigCall where
  | serializeRootSignature
  | createRootSignature
deriving DecidableEq, Repr

/-- `Device::create_root_signature` (device.rs lines 158-201).  The shim
first collects the converted parameters and samplers into scratch arrays
(collecting the samplers runs `StaticSamplerDesc::as_raw`, which panics),
then calls `D3D12SerializeRootSignature` and, on success,
`CreateRootSignature` on the produced blob; either native failure maps to
`DxError::Dummy`.  Result: the list of native calls made, paired with
`none` for a panic or `some` of the returned `Result`.  `serialize` is the
serializer's outcome (ok = the blob, modelled as `Nat`); `create` maps the
blob to the create call's outcome. -/
def create_root_signature (samplers : List StaticSamplerDesc)
    (serialize : Except Nat Nat) (create : Nat → Except Nat Nat) :
    List RootSigCall × Option (Except DxError Wrapped) :=
  match convertSamplers samplers with
  | none => ([], none)
  | some _ =>
    match serialize with
    | .error _ => ([.serializeRootSignature], some (.error .dummy))
    | .ok blob =>
      match create blob with
      | .error _ =>
          ([.serializeRootSignature, .createRootSignature], some (.error .dummy))
      | .ok res =>
          ([.serializeRootSignature, .createRootSignature], some (.ok ⟨res⟩))

/-! ### Command-list submission (src/oxidx/src/command_queue.rs lines 106-122) -/

/-- A command-list handle: its raw interface pointer and the result of
`as_raw().cast::<ID3D12CommandList>()` — `some` base-interface pointer, or
`none` when the COM cast fails (then `expect` panics). -/
structure CommandListHandle where
  raw : Nat
  castResult : Option Nat
deriving DecidableEq, Repr

/-- A `SmallVec<[_; 16]>` after `collect()`: its contents and whether the
collection spilled from the 16-slot inline buffer to the heap. -/
structure SmallVec16 (α : Type) where
  data : List α
  spilled : Bool
deriving DecidableEq, Repr

/-- Collecting an iterator into a `SmallVec<[_; 16]>`: contents are kept in
order; the inline capacity is 16, so the vector spills exactly when more
than 16 elements are collected. -/
def collectSmallVec16 {α : Type} (xs : List α) : SmallVec16 α :=
  ⟨xs, decide (16 < xs.length)⟩

/-- Driving the iterator
`command_lists.into_iter().map(|l| cast-or-panic).collect()`: the casts are
performed in order and `expect` panics at the first failed cast (`none`). -/
def castAll : List CommandListHandle → Option (List Nat)
  | [] => some []
  | l :: ls =>
    match l.castResult with
    | none => none
    | some c =>
      match castAll ls with
      | none => none
      | some cs => some (c :: cs)

/-- The native calls `execute_command_lists` can make. -/
inductive QueueCall where
  | executeCommandLists (lists : List Nat)
deriving DecidableEq, Repr

/-- `CommandQueue::execute_command_lists` (command_queue.rs lines 106-122):
casts each handle to `ID3D12CommandList` (panicking via `expect` on a
failed cast), collects the casts into a `SmallVec<[_; 16]>`, and calls the
native `ExecuteCommandLists` once on the collected slice.  Result: `none`
on panic, otherwise the scratch vector and the native call trace. -/
def execute_command_lists (ls : List CommandListHandle) :
    Option (SmallVec16 Nat × List QueueCall) :=
  match castAll ls with
  | none => none
  | some casts =>
    let command_lists := collectSmallVec16 casts
    some (command_lists, [.executeCommandLists command_lists.data])

/-! ### Adapter description conversion (src/oxidx/src/conv.rs lines 188-206)

The `AdapterFlags` bitflags set is declared in `crate::adapter`, which is
not among the staged sources; the set of recognized bits is therefore kept
abstract as a `knownMask : Nat`, and `bitflags`' `from_bits` is modelled by
its documented contract: `Some(bits)` when every set bit is a known bit,
`None` otherwise.  Flag sets are bit words (`Nat`); `empty()` is `0`. -/

/-- `AdapterFlags::from_bits` over the known-bit mask. -/
def AdapterFlags.from_bits (knownMask bits : Nat) : Option Nat :=
  if bits &&& knownMask = bits then some bits else none

/-- The native `DXGI_ADAPTER_DESC1` record.  `Description` (a UTF-16 string
whose lossy decode the claims do not concern) is left out of the model. -/
structure DXGI_ADAPTER_DESC1 where
  VendorId : Nat
  DeviceId : Nat
  SubSysId : Nat
  Revision : Nat
  DedicatedVideoMemory : Nat
  DedicatedSystemMemory : Nat
  SharedSystemMemory : Nat
  AdapterLuidLowPart : Nat
  AdapterLuidHighPart : Nat
  Flags : Nat
deriving DecidableEq, Repr

/-- The structured `AdapterDesc` record (sans the description string). -/
structure AdapterDesc where
  vendor_id : Nat
  device_id : Nat
  sub_sys_id : Nat
  revision : Nat
  dedicated_video_memory : Nat
  dedicated_system_memory : Nat
  shared_system_memory : Nat
  luid_low_part : Nat
  luid_high_part : Nat
  flags : Nat
deriving DecidableEq, Repr

/-- `impl From<DXGI_ADAPTER_DESC1> for AdapterDesc` (conv.rs lines
188-206): field-by-field copy, except that both `dedicated_system_memory`
and `shared_system_memory` are assigned from `value.SharedSystemMemory`,
and `flags` is `AdapterFlags::from_bits(value.Flags).unwrap_or(empty())`. -/
def adapterDescFromRaw (knownMask : Nat) (value : DXGI_ADAPTER_DESC1) :
    AdapterDesc where
  vendor_id := value.VendorId
  device_id := value.DeviceId
  sub_sys_id := value.SubSysId
  revision := value.Revision
  dedicated_video_memory := value.DedicatedVideoMemory
  dedicated_system_memory := value.SharedSystemMemory
  shared_system_memory := value.SharedSystemMemory
  luid_low_part := value.AdapterLuidLowPart
  luid_high_part := value.AdapterLuidHighPart
  flags := (AdapterFlags.from_bits knownMask value.Flags).getD 0

/-! ### Default-buffer upload helper
(src/examples/frank-luna/common/src/utils.rs lines 23-73)

The helper's callees (`create_committed_resource`, `resource_barrier`,
`update_subresources_fixed`) live in repository files not among the staged
sources; they are modelled as trace events, with their driver-dependent
outcomes passed in as an oracle. -/

/-- The heap a committed resource is placed in: `HeapProperties::default()`
or `HeapProperties::upload()`. -/
inductive HeapKind where
  | defaultHeap
  | upload
deriving DecidableEq, Repr

/-- The resource states the helper uses. -/
inductive ResourceStates where
  | common
  | copyDest
  | genericRead
deriving DecidableEq, Repr

/-- The calls `create_default_buffer` makes against the device and the
command list, in order. -/
inductive HelperCall where
  | createCommittedResource (heap : HeapKind) (size : Nat) (initState : ResourceStates)
  | resourceBarrierTransition (resource : Nat) (before after : ResourceStates)
  | updateSubresources (dst staging : Nat)
deriving DecidableEq, Repr

/-- The driver-dependent outcomes of the helper's callees: the two
`create_committed_resource` results (raw resource handles as `Nat`) and
the byte count `update_subresources_fixed` reports. -/
structure DefaultBufferOracle where
  defaultBufferResult : Except DxError Nat
  uploadBufferResult : Except DxError Nat
  updateResult : Nat
deriving Repr

/-- `size_of_val(data)` for a slice of `len` elements of size
`elemSize`. -/
def size_of_val (elemSize len : Nat) : Nat :=
  elemSize * len

/-- `create_default_buffer` (utils.rs lines 23-73): create the default-heap
buffer (initial state Common) and `unwrap`, create the upload-heap buffer
(initial state GenericRead) and `unwrap`, record a Common→CopyDest barrier
on the default buffer, run the subresource update with the upload buffer
as staging and `assert!` the reported count is positive, record a
CopyDest→GenericRead barrier, and return both buffers.  Result: the trace
of calls made, paired with `none` for a panic or `some` of the returned
pair. -/
def create_default_buffer (elemSize len : Nat) (o : DefaultBufferOracle) :
    List HelperCall × Option (Nat × Nat) :=
  let size := size_of_val elemSize len
  let t1 := [HelperCall.createCommittedResource .defaultHeap size .common]
  match o.defaultBufferResult with
  | .error _ => (t1, none)
  | .ok default_buffer =>
    let t2 := t1 ++ [HelperCall.createCommittedResource .upload size .genericRead]
    match o.uploadBufferResult with
    | .error _ => (t2, none)
    | .ok upload_buffer =>
      let t3 := t2 ++
        [HelperCall.resourceBarrierTransition default_buffer .common .copyDest,
         HelperCall.updateSubresources default_buffer upload_buffer]
      if 0 < o.updateResult then
        (t3 ++ [HelperCall.resourceBarrierTransition default_buffer .copyDest .genericRead],
         some (default_buffer, upload_buffer))
      else
        (t3, none)

/-! ### Binary blob loader
(src/examples/frank-luna/common/src/utils.rs lines 75-92) -/

/-- A native blob: its allocated length and its buffer bytes, `none` for a
byte the loader never wrote (blob memory is not zero-filled). -/
structure Blob where
  size : Nat
  contents : List (Option Nat)
deriving DecidableEq, Repr

/-- `load_binary` (utils.rs lines 75-92): seek to the end to obtain `size`,
allocate a blob of that length, issue a single `reader.read(buffer)` whose
returned count is ignored (`let _ = ...`), and return the blob.  `file` is
the file's bytes; `readLen` is the count the single read call delivered
(the OS may deliver fewer bytes than requested), so only the first
`readLen` bytes of the blob are written. -/
def load_binary (file : List Nat) (readLen : Nat) : Blob :=
  let size := file.length
  ⟨size, (List.range size).map fun i =>
    if i < readLen then some (file.getD i 0) else none⟩

/-! ### Aligned constant-buffer wrapper
(src/examples/frank-luna/common/src/utils.rs lines 11-13) -/

/-- A Rust type layout: size and alignment in bytes. -/
structure Layout where
  size : Nat
  align : Nat
deriving DecidableEq, Repr

/-- A well-formed Rust layout: the alignment is a power of two and divides
the size (guaranteed for every sized Rust type). -/
def Layout.wf (l : Layout) : Prop :=
  (∃ k, l.align = 2 ^ k) ∧ l.align ∣ l.size

/-- Round `n` up to the next multiple of `a`. -/
def roundUp (n a : Nat) : Nat :=
  ((n + a - 1) / a) * a

/-- The layout of `#[repr(align(256))] struct ConstantBufferData<T>(pub T)`
per the Rust reference on `repr(align)`: the alignment is raised to the
maximum of 256 and `T`'s alignment, and the size is rounded up to a
multiple of that alignment. -/
def ConstantBufferData.layout (inner : Layout) : Layout :=
  ⟨roundUp inner.size (max 256 inner.align), max 256 inner.align⟩

/-! ## Theorems -/

/-- C1: for every `RootParameterType` variant and every `ViewDimension`
variant, the native type tag produced by `as_type_raw` and the native union
payload produced by `as_raw` are consistent: the payload initializes
exactly the union arm that the type tag selects. -/
theorem tag_and_payload_select_same_union_arm :
    (∀ p : RootParameterType,
        rootParamArmOfTag p.as_type_raw = some (p.as_raw).arm) ∧
    (∀ d : ViewDimension,
        rtvArmOfTag d.as_type_raw = some (d.as_raw).arm) := by
  constructor
  · intro p
    cases p <;> rfl
  · intro d
    cases d <;> rfl

/-- C2: every device-creation shim (`create_command_allocator`,
`create_command_queue`, `create_command_list`, `create_fence`,
`create_descriptor_heap`, `create_root_signature`) and `CommandQueue::signal`
returns `Err(DxError::Dummy)` whenever the underlying native call fails and
`Ok` of the wrapped handle (or `Ok(())` for `signal`) whenever it succeeds;
for `create_root_signature` (empty sampler list, so no panic) a failure of
either the serialize step or the create step maps to `Dummy`, and success
of both wraps the created handle. -/
theorem native_failure_maps_to_dummy :
    (∀ e, create_command_allocator (.error e) = .error .dummy) ∧
    (∀ r, create_command_allocator (.ok r) = .ok ⟨r⟩) ∧
    (∀ e, create_command_queue (.error e) = .error .dummy) ∧
    (∀ r, create_command_queue (.ok r) = .ok ⟨r⟩) ∧
    (∀ e, create_command_list (.error e) = .error .dummy) ∧
    (∀ r, create_command_list (.ok r) = .ok ⟨r⟩) ∧
    (∀ e, create_fence (.error e) = .error .dummy) ∧
    (∀ r, create_fence (.ok r) = .ok ⟨r⟩) ∧
    (∀ e, create_descriptor_heap (.error e) = .error .dummy) ∧
    (∀ r, create_descriptor_heap (.ok r) = .ok ⟨r⟩) ∧
    (∀ e, signal (.error e) = .error .dummy) ∧
    (signal (.ok ()) = .ok ()) ∧
    (∀ e create, create_root_signature [] (.error e) create =
        ([.serializeRootSignature], some (.error .dummy))) ∧
    (∀ blob create, create_root_signature [] (.ok blob) create =
        ([.serializeRootSignature, .createRootSignature],
         some (match create blob with
               | .error _ => .error .dummy
               | .ok res => .ok ⟨res⟩))) := by
  refine ⟨fun e => rfl, fun r => rfl, fun e => rfl, fun r => rfl,
    fun e => rfl, fun r => rfl, fun e => rfl, fun r => rfl,
    fun e => rfl, fun r => rfl, fun e => rfl, rfl, fun e create => rfl,
    fun blob create => ?_⟩
  cases h : create blob <;>
    simp [create_root_signature, convertSamplers, h]

/-- C10: a root-signature descriptor with a non-empty static-sampler slice
makes `create_root_signature` panic (the `todo!()` in
`StaticSamplerDesc::as_raw`) before any native serialization or creation
call; only an empty sampler list reaches a `Result`. -/
theorem nonempty_samplers_panic_before_native_calls :
    (∀ (s : StaticSamplerDesc) (ss : List StaticSamplerDesc)
        (serialize : Except Nat Nat) (create : Nat → Except Nat Nat),
      create_root_signature (s :: ss) serialize create = ([], none)) ∧
    (∀ (serialize : Except Nat Nat) (create : Nat → Except Nat Nat),
      (create_root_signature [] serialize create).2.isSome = true) := by
  constructor
  · intro s ss serialize create
    rfl
  · intro serialize create
    cases serialize with
    | error e => rfl
    | ok blob =>
      cases h : create blob <;>
        simp [create_root_signature, convertSamplers, h]

/-- C5: the adapter-description conversion assigns the native
`SharedSystemMemory` field to both `dedicated_system_memory` and
`shared_system_memory`. -/
theorem adapter_desc_memory_fields_share_native_source :
    ∀ (knownMask : Nat) (value : DXGI_ADAPTER_DESC1),
      (adapterDescFromRaw knownMask value).dedicated_system_memory =
          value.SharedSystemMemory ∧
      (adapterDescFromRaw knownMask value).shared_system_memory =
          value.SharedSystemMemory :=
  fun _ _ => ⟨rfl, rfl⟩

/-- C6: inbound adapter-flag conversion preserves a flags word made only of
known bits exactly, and converts any word containing an unknown bit to the
empty flag set rather than an error. -/
theorem adapter_flags_known_kept_unknown_dropped
    (knownMask : Nat) (value : DXGI_ADAPTER_DESC1) :
    (value.Flags &&& knownMask = value.Flags →
      (adapterDescFromRaw knownMask value).flags = value.Flags) ∧
    (value.Flags &&& knownMask ≠ value.Flags →
      (adapterDescFromRaw knownMask value).flags = 0) := by
  constructor <;> intro h <;>
    simp [adapterDescFromRaw, AdapterFlags.from_bits, h]

/-- Witness for C6: with known mask `3`, the word `2` (only known bits) is
preserved and the word `5` (unknown bit `4` set) drops to the empty set. -/
theorem adapter_flags_known_kept_unknown_dropped_witness :
    (adapterDescFromRaw 3 ⟨0, 0, 0, 0, 0, 0, 0, 0, 0, 2⟩).flags = 2 ∧
    (adapterDescFromRaw 3 ⟨0, 0, 0, 0, 0, 0, 0, 0, 0, 5⟩).flags = 0 :=
  ⟨(adapter_flags_known_kept_unknown_dropped 3 ⟨0, 0, 0, 0, 0, 0, 0, 0, 0, 2⟩).1
      (by decide),
   (adapter_flags_known_kept_unknown_dropped 3 ⟨0, 0, 0, 0, 0, 0, 0, 0, 0, 5⟩).2
      (by decide)⟩

/-- Helper: a successful `castAll` run keeps length and per-index contents:
the i-th cast is the cast of the i-th handle. -/
theorem castAll_length_and_get :
    ∀ (ls : List CommandListHandle) (cs : List Nat), castAll ls = some cs →
      cs.length = ls.length ∧
      ∀ i, cs.get? i = (ls.get? i).bind CommandListHandle.castResult := by
  intro ls
  induction ls with
  | nil =>
    intro cs h
    cases h
    exact ⟨rfl, fun i => by cases i <;> rfl⟩
  | cons l ls ih =>
    intro cs h
    unfold castAll at h
    cases hc : l.castResult with
    | none => rw [hc] at h; cases h
    | some c =>
      rw [hc] at h
      cases hrest : castAll ls with
      | none => rw [hrest] at h; cases h
      | some rest =>
        rw [hrest] at h
        cases h
        obtain ⟨hlen, hget⟩ := ih rest hrest
        refine ⟨by simp [hlen], fun i => ?_⟩
        cases i with
        | zero => simp [hc]
        | succ j => simpa using hget j

/-- C3: when every cast succeeds, `execute_command_lists` submits the casts
in one native call, in iterable order (the i-th slot of the submitted array
is the cast of the i-th handle, for every length), and the scratch
`SmallVec` spills exactly when the iterable holds more than 16 elements
(so 16 stays inline and 17 spills). -/
theorem execute_command_lists_single_ordered_call
    (ls : List CommandListHandle) (casts : List Nat)
    (h : castAll ls = some casts) :
    execute_command_lists ls =
      some (collectSmallVec16 casts, [.executeCommandLists casts]) ∧
    casts.length = ls.length ∧
    (∀ i, casts.get? i = (ls.get? i).bind CommandListHandle.castResult) ∧
    (collectSmallVec16 casts).spilled = decide (16 < ls.length) := by
  obtain ⟨hlen, hget⟩ := castAll_length_and_get ls casts h
  refine ⟨?_, hlen, hget, ?_⟩
  · simp [execute_command_lists, h, collectSmallVec16]
  · simp [collectSmallVec16, hlen]

/-- Witness for C3 at a concrete two-element iterable whose casts are `5`
and `9`. -/
theorem execute_command_lists_single_ordered_call_witness :
    execute_command_lists [⟨0, some 5⟩, ⟨1, some 9⟩] =
      some (collectSmallVec16 [5, 9], [.executeCommandLists [5, 9]]) :=
  (execute_command_lists_single_ordered_call
    [⟨0, some 5⟩, ⟨1, some 9⟩] [5, 9] rfl).1

/-- Counterexample to C4: on the empty iterable the code does invoke the
native submission API — the call trace is a single `ExecuteCommandLists`
with a zero-length array, not the empty trace the claim requires. -/
theorem execute_command_lists_empty_calls_native :
    Option.map Prod.snd (execute_command_lists []) =
      some [QueueCall.executeCommandLists []] ∧
    [QueueCall.executeCommandLists []] ≠ ([] : List QueueCall) :=
  ⟨rfl, by simp⟩

/-- C4 as amended: executing `execute_command_lists` on an empty iterable
invokes the native submission API exactly once, with a zero-length
(non-spilled) array. -/
theorem execute_command_lists_empty_single_zero_length_call :
    execute_command_lists [] =
      some (⟨[], false⟩, [.executeCommandLists []]) :=
  rfl

/-- C7: with both resource creations succeeding, `create_default_buffer`
performs exactly the five calls in order — default-heap buffer of
`bytes(data)` in state Common, upload-heap buffer of the same size in state
GenericRead, Common→CopyDest barrier, subresource update with the upload
buffer as staging, CopyDest→GenericRead barrier — and returns the pair of
buffers when the update reports a positive count, and panics (no return)
when the update reports zero. -/
theorem create_default_buffer_steps
    (elemSize len : Nat) (o : DefaultBufferOracle) (db ub : Nat)
    (_hlen : 0 < len)
    (hd : o.defaultBufferResult = .ok db)
    (hu : o.uploadBufferResult = .ok ub) :
    (0 < o.updateResult →
      create_default_buffer elemSize len o =
        ([.createCommittedResource .defaultHeap (size_of_val elemSize len) .common,
          .createCommittedResource .upload (size_of_val elemSize len) .genericRead,
          .resourceBarrierTransition db .common .copyDest,
          .updateSubresources db ub,
          .resourceBarrierTransition db .copyDest .genericRead],
         some (db, ub))) ∧
    (o.updateResult = 0 →
      (create_default_buffer elemSize len o).2 = none) := by
  constructor <;> intro h <;>
    simp [create_default_buffer, hd, hu, h]

/-- Witness for C7: a 6-element slice of 4-byte elements (24 bytes), with
the two creations returning handles 10 and 11 and the update reporting 24
bytes. -/
theorem create_default_buffer_steps_witness :
    create_default_buffer 4 6 ⟨.ok 10, .ok 11, 24⟩ =
      ([.createCommittedResource .defaultHeap 24 .common,
        .createCommittedResource .upload 24 .genericRead,
        .resourceBarrierTransition 10 .common .copyDest,
        .updateSubresources 10 11,
        .resourceBarrierTransition 10 .copyDest .genericRead],
       some (10, 11)) :=
  (create_default_buffer_steps 4 6 ⟨.ok 10, .ok 11, 24⟩ 10 11
    (by decide) rfl rfl).1 (by decide)

/-- Evaluation of `load_binary` at the C8 failing input: on a 2-byte file
`[7, 7]` whose single read call delivers only 1 byte, the returned blob has
the file's length but its second byte was never written — the file's
contents are not fully read.  On a zero-byte file the loader does return a
zero-length blob. -/
theorem load_binary_partial_read_eval :
    load_binary [7, 7] 1 = ⟨2, [some 7, none]⟩ ∧
    load_binary [] 0 = ⟨0, []⟩ := by
  constructor <;> rfl

/-- C9: for every well-formed inner layout, the layout of
`ConstantBufferData<T>` has size a multiple of 256 and alignment at least
256. -/
theorem constantBufferData_layout_aligned
    (inner : Layout) (hwf : inner.wf) :
    256 ∣ (ConstantBufferData.layout inner).size ∧
    256 ≤ (ConstantBufferData.layout inner).align := by
  obtain ⟨⟨k, hk⟩, -⟩ := hwf
  have halign : (256 : Nat) ≤ max 256 inner.align := le_max_left _ _
  have hdvd_align : (256 : Nat) ∣ max 256 inner.align := by
    rcases le_or_lt inner.align 256 with hle | hgt
    · rw [max_eq_left hle]
    · rw [max_eq_right hgt.le, hk]
      have h256 : (2 : Nat) ^ 8 ≤ 2 ^ k := by
        rw [← hk]
        exact_mod_cast hgt.le
      have hk8 : 8 ≤ k :=
        (Nat.pow_le_pow_iff_right (by norm_num)).mp h256
      exact pow_dvd_pow 2 hk8
  have hdvd_size :
      max 256 inner.align ∣ (ConstantBufferData.layout inner).size :=
    dvd_mul_left _ _
  exact ⟨hdvd_align.trans hdvd_size, halign⟩

/-- Witness for C9 at the inner layout of a 4-byte, 4-aligned type. -/
theorem constantBufferData_layout_aligned_witness :
    256 ∣ (ConstantBufferData.layout ⟨4, 4⟩).size ∧
    256 ≤ (ConstantBufferData.layout ⟨4, 4⟩).align :=
  constantBufferData_layout_aligned ⟨4, 4⟩ ⟨⟨2, rfl⟩, by decide⟩

end Oxidx
